import Mathlib

set_option maxHeartbeats 1000000

/-!
Verification of the TMAS chatbot backend (FastAPI, `backend/main.py` and
`backend/services/ai_service.py`) against its natural-language specification.

The render/repair orchestration loop, the request/video correlation store and
the explanation streamer are embedded shallowly: external collaborator calls
(the render engine, the repair model, the explanation model) are oracles whose
outcome at each invocation is a parameter; an `exn` outcome models the Python
call raising an exception.  `services/manim_service.py` is not part of the
source tree, so the few behaviours of `ManimService` that the claims depend on
(`get_video_path`, the `Ready` marking performed inside
`render_and_store_video`) are modelled from the spec and flagged as such.
-/

/-- ASCII model of Python's whitespace test (`str.split()`, `str.strip()`,
regex `\s`): space, tab, newline, carriage return, vertical tab, form feed. -/
def pyIsSpace (c : Char) : Bool :=
  c == ' ' || c == '\t' || c == '\n' || c == '\r' || c == '\x0b' || c == '\x0c'

/-- ASCII model of regex `\w`: alphanumeric or underscore. -/
def isWordChar (c : Char) : Bool :=
  c.isAlphanum || c == '_'

/-- Python `str.strip()`: drop leading and trailing whitespace. -/
def pyStrip (s : String) : String :=
  String.mk (((s.data.dropWhile pyIsSpace).reverse.dropWhile pyIsSpace).reverse)

/-- Python truthiness of an `Optional[str]`: `None` and `""` are falsy. -/
def pyTruthyOpt : Option String → Bool
  | none => false
  | some s => !s.isEmpty

/-- Outcome of one invocation of `manim_service.render_and_store_video(current_code,
class_name, request_id)` as seen by the loop in `run_manim_task` (main.py 363):
a video path with `error = None`, or an error string together with the script
that was used (`code_used`), or the call raising an exception. -/
inductive RenderResult where
  | ok (video_path : String) (code_used : String)
  | err (error : String) (code_used : String)
  | exn
deriving DecidableEq

/-- Outcome of one invocation of `ai_service.debug_manim_code(code_used, error)`
as seen by the loop in `run_manim_task` (main.py 371): a corrected script, or
the call raising an exception. -/
inductive RepairResult where
  | ok (code : String)
  | exn
deriving DecidableEq

/-- Terminal state of a request identifier in the correlation store.
`ready` corresponds to an entry in `manim_service.video_map`, `noVideo` to
membership of `manim_service.no_video_requests`, `pending` to absence. -/
inductive Outcome where
  | pending
  | ready (video_path : String)
  | noVideo
deriving DecidableEq

/-- What one execution of the orchestrator background task did: the terminal
store state for the request identifier, and how many render and repair
invocations were performed. -/
structure TaskRun where
  outcome : Outcome
  renders : Nat
  repairs : Nat
deriving DecidableEq

/-- The retry loop of `run_manim_task` (main.py 357-381), translated clause by
clause.  `remaining = max_attempts - attempt`; `rc`/`pc` count render/repair
invocations made so far (the oracles are indexed by invocation count).

* `remaining = 0`: the `while` condition fails, the `else:` clause of the
  `while` runs and adds the identifier to `no_video_requests`.
* render returns `error = None`: `break`; `render_and_store_video` has already
  stored the video path for the identifier (modelled from the spec: the store
  write on success happens inside `ManimService`, absent from the source tree,
  per spec §4.1/§4.3 the orchestrator reaches `Ready(video_path)`).
* render returns an error: `debug_manim_code(code_used, error)` is called.
  On success its result replaces `current_code` and `attempt += 1` loops.
  On exception the identifier is added to `no_video_requests` and the task
  returns immediately.
* render raises: caught by the outer `except Exception` (main.py 382-386),
  which adds the identifier to `no_video_requests`. -/
def run_manim_loop (render : Nat → String → RenderResult)
    (repair : Nat → String → String → RepairResult) :
    Nat → Nat → Nat → String → TaskRun
  | 0, rc, pc, _ => ⟨Outcome.noVideo, rc, pc⟩
  | remaining + 1, rc, pc, current_code =>
    match render rc current_code with
    | RenderResult.ok p _ => ⟨Outcome.ready p, rc + 1, pc⟩
    | RenderResult.err e code_used =>
      match repair pc code_used e with
      | RepairResult.ok fixed_code =>
        run_manim_loop render repair remaining (rc + 1) (pc + 1) fixed_code
      | RepairResult.exn => ⟨Outcome.noVideo, rc + 1, pc + 1⟩
    | RenderResult.exn => ⟨Outcome.noVideo, rc + 1, pc⟩

/-- `max_attempts = 3` (main.py 357). -/
def max_attempts : Nat := 3

/-- `run_manim_task` (main.py 354-386): the whole background task, starting
from the original script with zero attempts made. -/
def run_manim_task (render : Nat → String → RenderResult)
    (repair : Nat → String → String → RepairResult) (manim_code : String) : TaskRun :=
  run_manim_loop render repair max_attempts 0 0 manim_code

/-- `ai_service.debug_manim_code(code, error)` (services/ai_service.py 738-760):
builds the debugging prompts, performs the collaborator call and extracts the
message content (`response["choices"][0]["message"]["content"]`), then returns
`content.strip()`.  The collaborator call together with the field accesses is
an oracle: `none` models it raising an exception, `some s` models extracted
content `s`.  There is no empty-content check in the source: empty content is
returned as the empty script. -/
def debug_manim_code (api_content : Option String) : Option String :=
  api_content.map pyStrip

/-- The repair step as the orchestrator invokes it: `debug_manim_code` applied
to the collaborator content of the nth repair invocation.  A `none` result
(the call raised) becomes the task-level `exn`. -/
def repair_via_debug (api_content : Nat → Option String) :
    Nat → String → String → RepairResult := fun n _ _ =>
  match debug_manim_code (api_content n) with
  | some c => RepairResult.ok c
  | none => RepairResult.exn

/-- Process-wide state read and written by the polling endpoint
(main.py 424-464): `manim_service.video_map` (request identifier to stored
video path), `manim_service.no_video_requests` (the no-video set), and the
set of filesystem paths at which a file currently exists. -/
structure StoreState where
  video_map : List (String × String)
  no_video_requests : List String
  files : List String
deriving DecidableEq

/-- Modelled from the spec: `services/manim_service.py` is not in the source
tree, only its callers are.  Spec §4.4 specifies the poll lookup: the store
resolves a request identifier to the stored video path, if any
(`ManimService.get_video_path`). -/
def get_video_path (s : StoreState) (request_id : String) : Option String :=
  (s.video_map.find? (fun kv => kv.1 == request_id)).map (fun kv => kv.2)

/-- Response of `GET /chat/video_base64/{request_id}`: 404, 200 carrying the
base64-encoded bytes of the served file (identified here by its path), or
202. -/
inductive PollResponse where
  | notFound
  | okVideo (served_path : String)
  | accepted
deriving DecidableEq

/-- `get_video_base64` (main.py 424-464), translated clause by clause:

1. the no-video check runs first: an identifier in `no_video_requests` gets
   404 regardless of anything else;
2. `if video_path and os.path.exists(video_path):` — a stored, truthy path
   whose file exists is served as 200 and the file is then deleted
   (`os.remove`, modelled as succeeding); `video_map` is not touched;
3. otherwise 202.

The `temp_manim` directory cleanup in the 200 branch touches no state the
claims mention and is elided. -/
def get_video_base64 (s : StoreState) (request_id : String) : PollResponse × StoreState :=
  let video_path := get_video_path s request_id
  if s.no_video_requests.contains request_id then
    (PollResponse.notFound, s)
  else if pyTruthyOpt video_path && s.files.contains (video_path.getD "") then
    (PollResponse.okVideo (video_path.getD ""),
      { s with files := s.files.erase (video_path.getD "") })
  else
    (PollResponse.accepted, s)

/-- Outcome of the primary generation call
`asyncio.wait_for(ai_service.generate_response(...), timeout=120)` in
`chat_stream_endpoint` (main.py 292-295): a result, a timeout, or another
exception carrying its message. -/
inductive GenOut where
  | ok (explanation : String) (manim_code : Option String)
  | timeout
  | error (msg : String)
deriving DecidableEq

/-- Outcome of evaluating the fallback call
`asyncio.wait_for(ai_service.generate_simple_animation_response(fallback_prompt), timeout=60)`:
a result, a timeout, or another exception. -/
inductive FallbackOut where
  | ok (explanation : String) (manim_code : Option String)
  | timeout
  | exn (msg : String)
deriving DecidableEq

/-- In the source, `AIService.generate_simple_animation_response` exists only
as a commented-out block (services/ai_service.py 104-164); the class defines
no such attribute.  Evaluating the fallback call therefore raises
`AttributeError` during attribute lookup, before any collaborator request is
made.  (CPython quotes the class and attribute names in the message; the
quotes are omitted here.) -/
def fallback_call : FallbackOut :=
  FallbackOut.exn
    "AttributeError: AIService object has no attribute generate_simple_animation_response"

/-- How the generation stage of `chat_stream_endpoint` concludes: proceed to
the streaming path with the generated result, re-raise an `HTTPException`
with a status and detail, or fall to the outer `except Exception` handler
(main.py 411-415), which returns a 200 streaming body containing only an
error chunk. -/
inductive StreamOutcome where
  | streaming (explanation : String) (manim_code : Option String)
  | httpError (status : Nat) (detail : String)
  | errorStream (chunk : String)
deriving DecidableEq

/-- The generation stage of `chat_stream_endpoint` (main.py 291-335 together
with the outer handler at 409-415), parameterized by the outcomes of the
primary call and of the fallback call:

* primary succeeds: streaming begins;
* primary times out (`except asyncio.TimeoutError`, main.py 304): the
  fallback is tried; only `asyncio.TimeoutError` is caught there and mapped
  to HTTP 504; any other exception from the fallback propagates to the outer
  `except Exception` handler and becomes the inline error stream;
* primary raises otherwise (`except Exception as e`, main.py 323): the
  fallback is tried; any failure (timeout included) is caught by
  `except Exception as fallback_error` and mapped to HTTP 503. -/
def generation_stage (primary : GenOut) (fb : FallbackOut) : StreamOutcome :=
  match primary with
  | GenOut.ok e c => StreamOutcome.streaming e c
  | GenOut.timeout =>
    match fb with
    | FallbackOut.ok e c => StreamOutcome.streaming e c
    | FallbackOut.timeout =>
      StreamOutcome.httpError 504
        "AI service timed out after 120 seconds. Please try a simpler question or try again later."
    | FallbackOut.exn m => StreamOutcome.errorStream ("Sorry, I encountered an error: " ++ m)
  | GenOut.error m =>
    match fb with
    | FallbackOut.ok e c => StreamOutcome.streaming e c
    | FallbackOut.timeout => StreamOutcome.httpError 503 ("AI service unavailable: " ++ m)
    | FallbackOut.exn _ => StreamOutcome.httpError 503 ("AI service unavailable: " ++ m)

/-- The generation stage as it actually runs in the source, with the fallback
call raising `AttributeError` (its method is commented out). -/
def chat_stream_generation (primary : GenOut) : StreamOutcome :=
  generation_stage primary fallback_call

/-- The HTTP status of a `StreamOutcome` when it is an `HTTPException`. -/
def http_status : StreamOutcome → Option Nat
  | StreamOutcome.httpError st _ => some st
  | _ => none

/-- `explanation.split()` (Python `str.split()` with no separator): split on
runs of whitespace, discarding empty pieces.  Auxiliary recursion carrying the
reversed current word. -/
def pySplitAux : List Char → List Char → List (List Char)
  | [], acc => if acc.isEmpty then [] else [acc.reverse]
  | c :: cs, acc =>
    if pyIsSpace c then
      if acc.isEmpty then pySplitAux cs [] else acc.reverse :: pySplitAux cs []
    else
      pySplitAux cs (c :: acc)

/-- `explanation.split()` on a `String`. -/
def pySplit (s : String) : List String :=
  (pySplitAux s.data []).map String.mk

/-- `text_streamer` (main.py 399-407) on its normal path: one chunk
`word + " "` per word of `explanation.split()`, then the trailer chunk
`f"\n[REQUEST_ID:{request_id}]\n"`. -/
def text_streamer (explanation request_id : String) : List String :=
  (pySplit explanation).map (fun w => w ++ " ") ++
    ["\n[REQUEST_ID:" ++ request_id ++ "]\n"]

/-- Concatenation of the emitted chunks. -/
def concatChunks : List String → String
  | [] => ""
  | c :: cs => c ++ concatChunks cs

/-- Actions of the `/chat/stream` handler after generation, in program order. -/
inductive HandlerEvent where
  | mark_no_video (request_id : String)
  | start_render_task (request_id : String)
  | stream_chunk (chunk : String)
deriving DecidableEq

/-- The tail of `chat_stream_endpoint` (main.py 346-408) as the ordered list
of the handler's actions: if `manim_code` is truthy the background render task
is started (render invocations happen only inside it); otherwise the
identifier is added to `no_video_requests` on the spot.  Either way the
streaming response producing `text_streamer`'s chunks is built afterwards.
(The `except` around task creation, which also marks no-video, can only run
in the truthy branch and is elided.) -/
def chat_stream_tail (manim_code : Option String) (request_id explanation : String) :
    List HandlerEvent :=
  (if pyTruthyOpt manim_code then [HandlerEvent.start_render_task request_id]
   else [HandlerEvent.mark_no_video request_id]) ++
    (text_streamer explanation request_id).map HandlerEvent.stream_chunk

/-- Match a literal pattern at the head of a character list, returning the
rest on success (`None` on mismatch). -/
def dropLit : List Char → List Char → Option (List Char)
  | [], l => some l
  | _ :: _, [] => none
  | p :: ps, c :: cs => if p = c then dropLit ps cs else none

/-- One anchored attempt of the regex `class\s+(\w+)\(Scene\):`
(main.py 349) at the head of `l`, returning the capture group.  Python's
backtracking is not needed here: the character classes `\s`, `\w` and the
literals that follow them are pairwise disjoint at the boundaries, so the
greedy runs `takeWhile pyIsSpace` and `takeWhile isWordChar` are the only
candidates — shrinking either run would require the next class to accept a
character it rejects. -/
def matchSceneAt (l : List Char) : Option (List Char) :=
  match dropLit "class".data l with
  | none => none
  | some r1 =>
    if (r1.takeWhile pyIsSpace).isEmpty then none
    else if ((r1.dropWhile pyIsSpace).takeWhile isWordChar).isEmpty then none
    else
      match dropLit "(Scene):".data ((r1.dropWhile pyIsSpace).dropWhile isWordChar) with
      | none => none
      | some _ => some ((r1.dropWhile pyIsSpace).takeWhile isWordChar)

/-- `re.search`: try the anchored match at each position, left to right, and
return the first capture. -/
def searchScene : List Char → Option (List Char)
  | [] => matchSceneAt []
  | c :: t =>
    match matchSceneAt (c :: t) with
    | some nm => some nm
    | none => searchScene t

/-- Scene-class selection (main.py 349-350):
`match = re.search(r'class\s+(\w+)\(Scene\):', manim_code)` followed by
`class_name = match.group(1) if match else "ConceptAnimation"`. -/
def class_name (manim_code : String) : String :=
  match searchScene manim_code.data with
  | some nm => String.mk nm
  | none => "ConceptAnimation"

/-- Declarative reading of the spec sentence "scene class name = first
declared scene-like class": the script declares, at position `i`, a class
named `name` of the scene-declaration shape — the literal `class`, at least
one whitespace character, a nonempty run of word characters (the name), then
the literal `(Scene):`. -/
def SceneDeclAt (code : List Char) (i : Nat) (name : List Char) : Prop :=
  name ≠ [] ∧ (∀ c ∈ name, isWordChar c = true) ∧
    ∃ ws suffix, ws ≠ [] ∧ (∀ c ∈ ws, pyIsSpace c = true) ∧
      code.drop i = "class".data ++ ws ++ name ++ "(Scene):".data ++ suffix

/-- A render oracle that fails on every invocation, echoing the script it was
given as `code_used`. -/
def render_always_fails : Nat → String → RenderResult :=
  fun _ s => RenderResult.err "ManimError" s

/-- A repair oracle that always returns a corrected script. -/
def repair_always_ok : Nat → String → String → RepairResult :=
  fun _ _ _ => RepairResult.ok "fixed script"

/-- C1 counterexample: with a render that fails on every attempt and a repair
that always returns a corrected script, the background task performs 3 render
invocations and 3 repair invocations — not the 2 the claim states: the repair
call inside the loop body runs after the third failing render as well, before
the `while` condition is re-tested. -/
theorem c1_counterexample :
    run_manim_task render_always_fails repair_always_ok "original script" =
      ⟨Outcome.noVideo, 3, 3⟩ ∧
    ¬ (run_manim_task render_always_fails repair_always_ok "original script").repairs = 2 := by
  constructor
  · rfl
  · decide

/-- C1 (amended): for every request whose render invocation fails on all
attempts and whose repair collaborator always returns a corrected script, the
orchestrator background task performs exactly 3 render invocations and
exactly 3 repair invocations — a repair call follows every failing render
attempt, the final one included — and the request terminates marked
NoVideo. -/
theorem c1_bounded_attempts (render : Nat → String → RenderResult)
    (repair : Nat → String → String → RepairResult) (manim_code : String)
    (hrender : ∀ n s, ∃ e cu, render n s = RenderResult.err e cu)
    (hrepair : ∀ n cu e, ∃ c, repair n cu e = RepairResult.ok c) :
    run_manim_task render repair manim_code = ⟨Outcome.noVideo, 3, 3⟩ := by
  obtain ⟨e0, cu0, h0⟩ := hrender 0 manim_code
  obtain ⟨c0, g0⟩ := hrepair 0 cu0 e0
  obtain ⟨e1, cu1, h1⟩ := hrender 1 c0
  obtain ⟨c1, g1⟩ := hrepair 1 cu1 e1
  obtain ⟨e2, cu2, h2⟩ := hrender 2 c1
  obtain ⟨c2, g2⟩ := hrepair 2 cu2 e2
  simp [run_manim_task, max_attempts, run_manim_loop, h0, g0, h1, g1, h2, g2]

theorem c1_bounded_attempts_witness :
    run_manim_task render_always_fails repair_always_ok "scene script" =
      ⟨Outcome.noVideo, 3, 3⟩ :=
  c1_bounded_attempts render_always_fails repair_always_ok "scene script"
    (fun _ s => ⟨"ManimError", s, rfl⟩) (fun _ _ _ => ⟨"fixed script", rfl⟩)

/-- C5: every execution of the orchestrator background task terminates with
the request identifier marked — either `ready` (render success) or `noVideo`
(repair failure, exhaustion of the three attempts, or any exception caught at
the outer `except Exception` boundary).  No code path of the task leaves the
identifier `pending`. -/
theorem c5_never_pending (render : Nat → String → RenderResult)
    (repair : Nat → String → String → RepairResult) (manim_code : String) :
    (run_manim_task render repair manim_code).outcome = Outcome.noVideo ∨
      ∃ p, (run_manim_task render repair manim_code).outcome = Outcome.ready p := by
  have key : ∀ remaining rc pc code,
      (run_manim_loop render repair remaining rc pc code).outcome = Outcome.noVideo ∨
        ∃ p, (run_manim_loop render repair remaining rc pc code).outcome = Outcome.ready p := by
    intro remaining
    induction remaining with
    | zero => intro rc pc code; left; rfl
    | succ r ih =>
      intro rc pc code
      cases hr : render rc code with
      | ok p cu => right; exact ⟨p, by simp [run_manim_loop, hr]⟩
      | err e cu =>
        cases hp : repair pc cu e with
        | ok c =>
          have := ih (rc + 1) (pc + 1) c
          simpa [run_manim_loop, hr, hp] using this
        | exn => left; simp [run_manim_loop, hr, hp]
      | exn => left; simp [run_manim_loop, hr]
  exact key max_attempts 0 0 manim_code

/-- C6: if the render succeeds on attempt k (1-based, k < 3), earlier attempts
failing with each repair producing a corrected script, then exactly k render
invocations and k - 1 repair invocations occur and the store reaches `ready`
with the video artifact produced by attempt k.  (The `Ready` write on success
happens inside `ManimService.render_and_store_video`, absent from the source
tree; it is modelled from spec §4.1/§4.3.) -/
theorem c6_early_success (render : Nat → String → RenderResult)
    (repair : Nat → String → String → RepairResult) (manim_code p : String) (k : Nat)
    (hk1 : 1 ≤ k) (hk3 : k < 3)
    (hfail : ∀ i s, i < k - 1 → ∃ e cu, render i s = RenderResult.err e cu)
    (hrep : ∀ i cu e, i < k - 1 → ∃ c, repair i cu e = RepairResult.ok c)
    (hsucc : ∀ s, ∃ cu, render (k - 1) s = RenderResult.ok p cu) :
    run_manim_task render repair manim_code = ⟨Outcome.ready p, k, k - 1⟩ := by
  interval_cases k
  · obtain ⟨cu, h⟩ := hsucc manim_code
    simp [run_manim_task, max_attempts, run_manim_loop, h]
  · obtain ⟨e0, cu0, h0⟩ := hfail 0 manim_code (by norm_num)
    obtain ⟨c0, g0⟩ := hrep 0 cu0 e0 (by norm_num)
    obtain ⟨cu1, h1⟩ := hsucc c0
    simp [run_manim_task, max_attempts, run_manim_loop, h0, g0, h1]

/-- A render oracle that fails on the first invocation and succeeds from the
second on. -/
def render_second_try : Nat → String → RenderResult := fun n s =>
  if n = 0 then RenderResult.err "NameError: x" s
  else RenderResult.ok "media/videos/out.mp4" s

theorem c6_early_success_witness :
    run_manim_task render_second_try repair_always_ok "scene script two" =
      ⟨Outcome.ready "media/videos/out.mp4", 2, 1⟩ :=
  c6_early_success render_second_try repair_always_ok "scene script two"
    "media/videos/out.mp4" 2 (by norm_num) (by norm_num)
    (fun i s hi => ⟨"NameError: x", s, by
      have hi0 : i = 0 := by omega
      subst hi0; rfl⟩)
    (fun _ _ _ _ => ⟨"fixed script", rfl⟩)
    (fun s => ⟨s, rfl⟩)

/-- A collaborator that answers every repair request with whitespace-only
content (empty after `strip()`). -/
def api_empty_content : Nat → Option String := fun _ => some "   "

/-- A render oracle that fails on any nonempty script and succeeds on the
empty script, so a success witnesses that the empty script was rendered. -/
def render_empty_succeeds : Nat → String → RenderResult := fun _ s =>
  if s = "" then RenderResult.ok "empty_script.mp4" s
  else RenderResult.err "SyntaxError" s

/-- C4 counterexample: the repair collaborator returns whitespace-only content
(empty after strip); `debug_manim_code` does not fail — there is no
empty-content check — and the orchestrator retries with the zero-length
script: the second render invocation receives `""` (the render oracle here
succeeds only on the empty script, and the run reaches `ready` with its
artifact, 2 renders, 1 repair), instead of the immediate `NoVideo` with no
further attempts that the claim requires. -/
theorem c4_counterexample :
    debug_manim_code (some "") = some "" ∧
    run_manim_task render_empty_succeeds (repair_via_debug api_empty_content)
        "orig script" = ⟨Outcome.ready "empty_script.mp4", 2, 1⟩ := by
  constructor
  · rfl
  · rfl

/-- C4 (amended): the repair operation fails whenever the repair collaborator
call errors — at whichever repair invocation `k` that happens (the first
`k` renders failing and the first `k` repairs succeeding) — and on such a
failure the orchestrator immediately marks the request NoVideo with no
further render or repair invocations (`k + 1` of each in total); but empty
collaborator content is not a repair failure — `debug_manim_code` returns
the stripped (possibly empty) content and the orchestrator continues the
loop with that zero-length script as the next script to render. -/
theorem c4_repair_failure (render : Nat → String → RenderResult)
    (api_content : Nat → Option String) (manim_code : String) (k : Nat) (hk : k < 3)
    (hfail : ∀ i s, i ≤ k → ∃ e cu, render i s = RenderResult.err e cu)
    (hok : ∀ i, i < k → ∃ c, api_content i = some c) :
    (api_content k = none →
      run_manim_task render (repair_via_debug api_content) manim_code =
        ⟨Outcome.noVideo, k + 1, k + 1⟩) ∧
    (api_content k = some "" →
      run_manim_task render (repair_via_debug api_content) manim_code =
        run_manim_loop render (repair_via_debug api_content)
          (max_attempts - (k + 1)) (k + 1) (k + 1) "") := by
  have hstrip : pyStrip "" = "" := rfl
  interval_cases k
  · obtain ⟨e0, cu0, h0⟩ := hfail 0 manim_code (by norm_num)
    constructor
    · intro ha
      simp [run_manim_task, max_attempts, run_manim_loop, h0, repair_via_debug,
        debug_manim_code, ha]
    · intro ha
      simp [run_manim_task, max_attempts, run_manim_loop, h0, repair_via_debug,
        debug_manim_code, ha, hstrip]
  · obtain ⟨e0, cu0, h0⟩ := hfail 0 manim_code (by norm_num)
    obtain ⟨c0, g0⟩ := hok 0 (by norm_num)
    obtain ⟨e1, cu1, h1⟩ := hfail 1 (pyStrip c0) (by norm_num)
    constructor
    · intro ha
      simp [run_manim_task, max_attempts, run_manim_loop, h0, g0, h1,
        repair_via_debug, debug_manim_code, ha]
    · intro ha
      simp [run_manim_task, max_attempts, run_manim_loop, h0, g0, h1,
        repair_via_debug, debug_manim_code, ha, hstrip]
  · obtain ⟨e0, cu0, h0⟩ := hfail 0 manim_code (by norm_num)
    obtain ⟨c0, g0⟩ := hok 0 (by norm_num)
    obtain ⟨e1, cu1, h1⟩ := hfail 1 (pyStrip c0) (by norm_num)
    obtain ⟨c1, g1⟩ := hok 1 (by norm_num)
    obtain ⟨e2, cu2, h2⟩ := hfail 2 (pyStrip c1) (by norm_num)
    constructor
    · intro ha
      simp [run_manim_task, max_attempts, run_manim_loop, h0, g0, h1, g1, h2,
        repair_via_debug, debug_manim_code, ha]
    · intro ha
      simp [run_manim_task, max_attempts, run_manim_loop, h0, g0, h1, g1, h2,
        repair_via_debug, debug_manim_code, ha, hstrip]

/-- A repair collaborator whose first call returns a corrected script and
whose second call raises. -/
def api_fails_second : Nat → Option String := fun n =>
  if n = 0 then some "fixed script" else none

theorem c4_repair_failure_witness :
    run_manim_task render_always_fails (repair_via_debug api_fails_second) "orig" =
      ⟨Outcome.noVideo, 2, 2⟩ :=
  (c4_repair_failure render_always_fails api_fails_second "orig" 1 (by norm_num)
    (fun _ s _ => ⟨"ManimError", s, rfl⟩)
    (fun i hi => ⟨"fixed script", by
      have hi0 : i = 0 := by omega
      subst hi0; rfl⟩)).1 rfl

/-- C2 counterexample: a store holding a ready video for `id1`.  The poll
answers 200 serving the bytes, but the `video_map` entry for `id1` is still
present afterwards — the endpoint deletes only the file, never the store
entry, refuting the removed-entry part of the claim. -/
theorem c2_counterexample :
    (get_video_base64 ⟨[("id1", "v.mp4")], [], ["v.mp4"]⟩ "id1").1 =
      PollResponse.okVideo "v.mp4" ∧
    ((get_video_base64 ⟨[("id1", "v.mp4")], [], ["v.mp4"]⟩ "id1").2).video_map =
      [("id1", "v.mp4")] := by
  constructor
  · rfl
  · rfl

/-- C2 (amended): after the polling endpoint answers a 200 for an identifier,
the underlying video file is deleted but the store entry is NOT removed
(`video_map` is unchanged); nevertheless a subsequent poll for the same
identifier answers 202 pending, because the retained path no longer exists on
disk — so the same video bytes are served at most once.  (`get_video_path` is
modelled from spec §4.4 as the store lookup; `ManimService` is absent from
the source tree.) -/
theorem c2_single_consumption (s s2 : StoreState) (request_id p : String)
    (hnd : s.files.Nodup)
    (h : get_video_base64 s request_id = (PollResponse.okVideo p, s2)) :
    s2.video_map = s.video_map ∧ p ∉ s2.files ∧
      get_video_base64 s2 request_id = (PollResponse.accepted, s2) := by
  by_cases hno : request_id ∈ s.no_video_requests
  · simp [get_video_base64, List.elem_iff, hno] at h
  · by_cases hex : pyTruthyOpt (get_video_path s request_id) = true ∧
        (get_video_path s request_id).getD "" ∈ s.files
    · simp only [get_video_base64, List.elem_iff, hno, if_false, Bool.and_eq_true,
        decide_eq_true_eq, hex.1, hex.2, if_true, and_true, true_and,
        Prod.mk.injEq, PollResponse.okVideo.injEq] at h
      obtain ⟨hp, hs2⟩ := h
      subst hs2
      subst hp
      refine ⟨rfl, ?_, ?_⟩
      · intro hmem
        exact ((List.Nodup.mem_erase_iff hnd).mp hmem).1 rfl
      · simp [get_video_base64, get_video_path, List.elem_iff, hno,
          List.Nodup.mem_erase_iff hnd]
    · exfalso
      simp [get_video_base64, List.elem_iff, hno, hex] at h

/-- A first consumed store: the video for `idw` was just served from
`⟨[("idw", "w.mp4")], [], ["w.mp4"]⟩`. -/
theorem c2_single_consumption_witness :
    (⟨[("idw", "w.mp4")], [], []⟩ : StoreState).video_map = [("idw", "w.mp4")] ∧
      "w.mp4" ∉ (⟨[("idw", "w.mp4")], [], []⟩ : StoreState).files ∧
      get_video_base64 ⟨[("idw", "w.mp4")], [], []⟩ "idw" =
        (PollResponse.accepted, ⟨[("idw", "w.mp4")], [], []⟩) :=
  c2_single_consumption ⟨[("idw", "w.mp4")], [], ["w.mp4"]⟩
    ⟨[("idw", "w.mp4")], [], []⟩ "idw" "w.mp4" (by simp) (by rfl)

/-- C10: the polling endpoint answers 202 for every identifier that is not in
the no-video set and has no stored path naming an existing file — including
identifiers the server never issued, which are indistinguishable from
in-flight renders and never get 404; and the no-video check takes precedence:
an identifier in the no-video set gets 404 even if a stored video file exists
for it.  (`get_video_path` modelled from spec §4.4, as above.) -/
theorem c10_poll_statuses (s : StoreState) (request_id : String) :
    (request_id ∉ s.no_video_requests →
      (∀ p, get_video_path s request_id = some p → p ∉ s.files) →
      (get_video_base64 s request_id).1 = PollResponse.accepted) ∧
    (request_id ∈ s.no_video_requests →
      (get_video_base64 s request_id).1 = PollResponse.notFound) := by
  constructor
  · intro hno hfile
    cases hv : get_video_path s request_id with
    | none => simp [get_video_base64, List.elem_iff, hno, hv, pyTruthyOpt]
    | some q => simp [get_video_base64, List.elem_iff, hno, hv, hfile q hv]
  · intro hno
    simp [get_video_base64, List.elem_iff, hno]

theorem c10_poll_statuses_witness :
    (get_video_base64 ⟨[], [], ["x.mp4"]⟩ "ghost").1 = PollResponse.accepted ∧
    (get_video_base64 ⟨[("idn", "n.mp4")], ["idn"], ["n.mp4"]⟩ "idn").1 =
      PollResponse.notFound :=
  ⟨(c10_poll_statuses ⟨[], [], ["x.mp4"]⟩ "ghost").1 (by simp)
      (fun p hp => by simp [get_video_path] at hp),
    (c10_poll_statuses ⟨[("idn", "n.mp4")], ["idn"], ["n.mp4"]⟩ "idn").2 (by simp)⟩

/-- C3 (code bug, evaluated at the failing input): the fallback method
`generate_simple_animation_response` is commented out in the source, so
evaluating the fallback call raises `AttributeError` without making any
collaborator request.  After a primary timeout, the handler catches only
`asyncio.TimeoutError`; the AttributeError escapes to the outer
`except Exception` handler and the client receives the inline 200 error
stream — not a service-unavailable (or any HTTP error) response.  Only when
the primary call raises a non-timeout error is the AttributeError caught
generically and turned into the 503 the claim describes. -/
theorem c3_fallback_divergence :
    chat_stream_generation GenOut.timeout =
      StreamOutcome.errorStream
        ("Sorry, I encountered an error: " ++
          "AttributeError: AIService object has no attribute generate_simple_animation_response") ∧
    http_status (chat_stream_generation GenOut.timeout) = none ∧
    chat_stream_generation (GenOut.error "boom") =
      StreamOutcome.httpError 503 "AI service unavailable: boom" := by
  refine ⟨rfl, rfl, rfl⟩

/-- C7: when the generation collaborator returns no animation script (`None`
or, by Python truthiness, the empty string), the handler marks the identifier
no-video on the spot, before the explanation stream is produced, and starts
no render task — so no render invocation ever occurs for the request. -/
theorem c7_no_script_short_circuit (manim_code : Option String)
    (request_id explanation : String) (h : pyTruthyOpt manim_code = false) :
    chat_stream_tail manim_code request_id explanation =
      HandlerEvent.mark_no_video request_id ::
        (text_streamer explanation request_id).map HandlerEvent.stream_chunk ∧
    ∀ rid, HandlerEvent.start_render_task rid ∉
      chat_stream_tail manim_code request_id explanation := by
  have h1 : chat_stream_tail manim_code request_id explanation =
      HandlerEvent.mark_no_video request_id ::
        (text_streamer explanation request_id).map HandlerEvent.stream_chunk := by
    simp [chat_stream_tail, h]
  refine ⟨h1, ?_⟩
  intro rid hmem
  rw [h1] at hmem
  rcases List.mem_cons.mp hmem with h2 | h2
  · exact HandlerEvent.noConfusion h2
  · obtain ⟨c, _, hc⟩ := List.mem_map.mp h2
    exact HandlerEvent.noConfusion hc

theorem c7_no_script_short_circuit_witness :
    chat_stream_tail none "rid-1" "hello world" =
      HandlerEvent.mark_no_video "rid-1" ::
        (text_streamer "hello world" "rid-1").map HandlerEvent.stream_chunk ∧
    ∀ rid, HandlerEvent.start_render_task rid ∉ chat_stream_tail none "rid-1" "hello world" :=
  c7_no_script_short_circuit none "rid-1" "hello world" rfl

theorem concatChunks_append (l1 l2 : List String) :
    concatChunks (l1 ++ l2) = concatChunks l1 ++ concatChunks l2 := by
  induction l1 with
  | nil => simp [concatChunks, String.empty_append]
  | cons c cs ih => simp [concatChunks, ih, String.append_assoc]

/-- C8: the chunks emitted by `text_streamer`, concatenated, end with the
literal trailer `"\n[REQUEST_ID:<id>]\n"`, and what precedes the trailer is
exactly the whitespace-separated words of the explanation, each followed by a
space, in their original order; in particular for explanation `"A B C"` and
identifier `"abc-123"` the concatenated stream is
`"A B C \n[REQUEST_ID:abc-123]\n"`. -/
theorem c8_stream_trailer (explanation request_id : String) :
    (∃ pre, concatChunks (text_streamer explanation request_id) =
        pre ++ ("\n[REQUEST_ID:" ++ request_id ++ "]\n")) ∧
    concatChunks (text_streamer explanation request_id) =
      concatChunks ((pySplit explanation).map (fun w => w ++ " ")) ++
        ("\n[REQUEST_ID:" ++ request_id ++ "]\n") ∧
    concatChunks (text_streamer "A B C" "abc-123") = "A B C \n[REQUEST_ID:abc-123]\n" := by
  have key : ∀ e i : String, concatChunks (text_streamer e i) =
      concatChunks ((pySplit e).map (fun w => w ++ " ")) ++
        ("\n[REQUEST_ID:" ++ i ++ "]\n") := by
    intro e i
    unfold text_streamer
    rw [concatChunks_append]
    simp [concatChunks, String.append_empty]
  exact ⟨⟨_, key explanation request_id⟩, key explanation request_id, by rfl⟩

theorem dropLit_eq_some (pat : List Char) : ∀ l rest : List Char,
    dropLit pat l = some rest ↔ l = pat ++ rest := by
  induction pat with
  | nil => intro l rest; simp [dropLit]
  | cons p ps ih =>
    intro l rest
    cases l with
    | nil => simp [dropLit]
    | cons c cs =>
      by_cases hpc : p = c
      · subst hpc
        simp [dropLit, ih]
      · simp [dropLit, hpc, Ne.symm hpc]

/-- A run of characters satisfying `p` followed by a list whose head (if any)
fails `p` is exactly what `takeWhile`/`dropWhile` split off. -/
theorem run_split (p : Char → Bool) (xs ys : List Char)
    (hall : ∀ c ∈ xs, p c = true)
    (hy : ∀ y yt, ys = y :: yt → p y = false) :
    (xs ++ ys).takeWhile p = xs ∧ (xs ++ ys).dropWhile p = ys := by
  induction xs with
  | nil =>
    cases ys with
    | nil => simp
    | cons y yt => simp [List.takeWhile_cons, List.dropWhile_cons, hy y yt rfl]
  | cons x xt ih =>
    have hx : p x = true := hall x (by simp)
    have ih2 := ih (fun c hc => hall c (by simp [hc]))
    simp [List.takeWhile_cons, List.dropWhile_cons, hx, ih2.1, ih2.2]

theorem isWordChar_not_space (c : Char) (h : isWordChar c = true) : pyIsSpace c = false := by
  cases hsp : pyIsSpace c
  · rfl
  · exfalso
    have hc := hsp
    simp only [pyIsSpace, Bool.or_eq_true, beq_iff_eq] at hc
    rcases hc with ((((rfl | rfl) | rfl) | rfl) | rfl) | rfl <;> exact absurd h (by decide)

theorem matchSceneAt_sound (l nm : List Char) (h : matchSceneAt l = some nm) :
    SceneDeclAt l 0 nm := by
  unfold matchSceneAt at h
  split at h
  · exact absurd h (by simp)
  · rename_i r1 h1
    split at h
    · exact absurd h (by simp)
    · rename_i hws
      split at h
      · exact absurd h (by simp)
      · rename_i hnm
        split at h
        · exact absurd h (by simp)
        · rename_i suffix h2
          have hnmeq : (r1.dropWhile pyIsSpace).takeWhile isWordChar = nm :=
            Option.some.inj h
          subst hnmeq
          have e1 : l = "class".data ++ r1 := (dropLit_eq_some _ _ _).mp h1
          have e3 : (r1.dropWhile pyIsSpace).dropWhile isWordChar =
              "(Scene):".data ++ suffix := (dropLit_eq_some _ _ _).mp h2
          refine ⟨?_, ?_, r1.takeWhile pyIsSpace, suffix, ?_, ?_, ?_⟩
          · intro he
            rw [he] at hnm
            exact hnm rfl
          · intro c hc
            exact List.mem_takeWhile_imp hc
          · intro he
            rw [he] at hws
            exact hws rfl
          · intro c hc
            exact List.mem_takeWhile_imp hc
          · have step1 : r1.dropWhile pyIsSpace =
                (r1.dropWhile pyIsSpace).takeWhile isWordChar ++
                  ("(Scene):".data ++ suffix) := by
              rw [← e3, List.takeWhile_append_dropWhile]
            have step2 : r1 = r1.takeWhile pyIsSpace ++
                ((r1.dropWhile pyIsSpace).takeWhile isWordChar ++
                  ("(Scene):".data ++ suffix)) := by
              rw [← step1, List.takeWhile_append_dropWhile]
            rw [List.drop_zero, e1]
            conv_lhs => rw [step2]
            simp [List.append_assoc]

theorem matchSceneAt_complete (l nm : List Char) (h : SceneDeclAt l 0 nm) :
    matchSceneAt l = some nm := by
  obtain ⟨hnm, hword, ws, suffix, hws, hspace, heq⟩ := h
  rw [List.drop_zero] at heq
  have hsplit1 : ((ws ++ (nm ++ ("(Scene):".data ++ suffix))).takeWhile pyIsSpace = ws) ∧
      ((ws ++ (nm ++ ("(Scene):".data ++ suffix))).dropWhile pyIsSpace =
        nm ++ ("(Scene):".data ++ suffix)) := by
    apply run_split
    · exact hspace
    · intro y yt hy
      cases nm with
      | nil => exact absurd rfl hnm
      | cons n nt =>
        rw [List.cons_append] at hy
        injection hy with hy1 _
        rw [← hy1]
        exact isWordChar_not_space n (hword n (by simp))
  have hsplit2 : ((nm ++ ("(Scene):".data ++ suffix)).takeWhile isWordChar = nm) ∧
      ((nm ++ ("(Scene):".data ++ suffix)).dropWhile isWordChar =
        "(Scene):".data ++ suffix) := by
    apply run_split
    · exact hword
    · intro y yt hy
      have hform : "(Scene):".data ++ suffix = '(' :: ("Scene):".data ++ suffix) := rfl
      rw [hform] at hy
      injection hy with hy1 _
      rw [← hy1]
      decide
  have hwsf : ws.isEmpty = false := by
    cases ws with
    | nil => exact absurd rfl hws
    | cons a b => rfl
  have hnmf : nm.isEmpty = false := by
    cases nm with
    | nil => exact absurd rfl hnm
    | cons a b => rfl
  have heq2 : l = "class".data ++ (ws ++ (nm ++ ("(Scene):".data ++ suffix))) := by
    rw [heq]; simp [List.append_assoc]
  unfold matchSceneAt
  rw [(dropLit_eq_some "class".data l (ws ++ (nm ++ ("(Scene):".data ++ suffix)))).mpr heq2]
  simp only [hsplit1.1, hsplit1.2, hsplit2.1, hsplit2.2, hwsf, hnmf,
    Bool.false_eq_true, if_false]
  rw [(dropLit_eq_some "(Scene):".data ("(Scene):".data ++ suffix) suffix).mpr rfl]

theorem SceneDeclAt_nil (i : Nat) (nm : List Char) : ¬ SceneDeclAt [] i nm := by
  rintro ⟨hnm, hword, ws, suffix, hws, hsp, heq⟩
  rw [List.drop_nil] at heq
  have h1 := List.append_eq_nil.mp heq.symm
  have h2 := List.append_eq_nil.mp h1.1
  have h3 := List.append_eq_nil.mp h2.1
  have h4 := List.append_eq_nil.mp h3.1
  exact absurd h4.1 (by decide)

theorem SceneDeclAt_cons_succ (c : Char) (t : List Char) (i : Nat) (nm : List Char) :
    SceneDeclAt (c :: t) (i + 1) nm ↔ SceneDeclAt t i nm := by
  unfold SceneDeclAt
  rw [List.drop_succ_cons]

theorem searchScene_eq_none (l : List Char) (h : ∀ i nm, ¬ SceneDeclAt l i nm) :
    searchScene l = none := by
  induction l with
  | nil =>
    unfold searchScene
    cases hm : matchSceneAt [] with
    | none => rfl
    | some nm => exact absurd (matchSceneAt_sound _ _ hm) (h 0 nm)
  | cons c t ih =>
    unfold searchScene
    cases hm : matchSceneAt (c :: t) with
    | none =>
      simp only []
      exact ih (fun i nm hd => h (i + 1) nm ((SceneDeclAt_cons_succ c t i nm).mpr hd))
    | some nm => exact absurd (matchSceneAt_sound _ _ hm) (h 0 nm)

theorem searchScene_eq_some (l : List Char) (i : Nat) (nm : List Char)
    (hd : SceneDeclAt l i nm) (hmin : ∀ j m, SceneDeclAt l j m → i ≤ j) :
    searchScene l = some nm := by
  induction l generalizing i with
  | nil => exact absurd hd (SceneDeclAt_nil i nm)
  | cons c t ih =>
    unfold searchScene
    cases i with
    | zero => rw [matchSceneAt_complete _ _ hd]
    | succ i2 =>
      cases hm : matchSceneAt (c :: t) with
      | some m =>
        have h0 : SceneDeclAt (c :: t) 0 m := matchSceneAt_sound _ _ hm
        exact absurd (hmin 0 m h0) (by omega)
      | none =>
        exact ih i2 ((SceneDeclAt_cons_succ c t i2 nm).mp hd)
          (fun j m hj => by
            have := hmin (j + 1) m ((SceneDeclAt_cons_succ c t j m).mpr hj)
            omega)

/-- C9: the scene class name passed to the render engine is the capture of the
first (leftmost) scene-class declaration `class <name>(Scene):` in the script,
and is exactly the fixed fallback `"ConceptAnimation"` when the script
contains no such declaration. -/
theorem c9_scene_class_name (manim_code : String) :
    ((∀ i nm, ¬ SceneDeclAt manim_code.data i nm) →
      class_name manim_code = "ConceptAnimation") ∧
    (∀ i nm, SceneDeclAt manim_code.data i nm →
      (∀ j m, SceneDeclAt manim_code.data j m → i ≤ j) →
      class_name manim_code = String.mk nm) := by
  constructor
  · intro h
    unfold class_name
    rw [searchScene_eq_none _ h]
  · intro i nm hd hmin
    unfold class_name
    rw [searchScene_eq_some _ i nm hd hmin]

theorem c9_scene_class_name_witness :
    class_name "class Foo(Scene):\n    def construct(self):" = String.mk "Foo".data :=
  (c9_scene_class_name "class Foo(Scene):\n    def construct(self):").2 0 "Foo".data
    ⟨by decide, by decide, [' '], "\n    def construct(self):".data, by decide, by decide,
      by decide⟩
    (fun j m _ => Nat.zero_le j)
